import Mathlib

/-!
Shallow embedding of the snippet lifecycle subsystem of the do-bot
repository (core/bot_engine.py, modules/snippet_manager.py, core/snippets.py,
core/configs.py), together with theorems settling the frozen claims about it.

Modelling conventions:
- timestamps are natural numbers counting seconds (datetime.utcnow values);
  timedelta(minutes=m) becomes m * 60;
- the global dict snippet_storage is an association list from snippet id
  (a uuid string) to the record dict; Python dict insertion appends a fresh
  key at the end, pop filters it out, and lookup returns the first match;
- SlackService().post_message calls are modelled as emitted Msg values, one
  constructor per posting site kind, carrying the data the claims inspect;
- the GPT oracles (generate_snippet, review_snippet, the classifier) and the
  uuid generator are parameters of the embedded functions;
- coder_manager.create_snippet_callable may fail (returns None): it is
  modelled as a parameter of type String -> Option SnippetBehavior, where a
  SnippetBehavior records what running the callable does: the stdout text it
  produces and whether it returns normally or raises an exception;
- core/snippets.py never imports SlackService (its imports are logging,
  TaskScheduler and sys/io), so every posting site inside run_snippet_now
  raises NameError when reached: run_snippet_now executes the payload but
  posts nothing and always propagates a NameError to its caller; functions
  that can propagate a Python exception return it explicitly as an
  Option PyError alongside their observable effects.
-/

namespace DoBot

/-- The value of the final_decision field: None | "confirm" | "cancel". -/
inductive FinalDecision where
  | confirm
  | cancel
deriving DecidableEq, Repr

/-- One record of snippet_storage (bot_engine.py lines 17-24 /
snippet_manager.py lines 17-24). -/
structure SnippetEntry where
  code : String
  summary : String
  channel : String
  threadTs : String
  expiresAt : Nat
  userRequest : String
  initialRoleInfo : String
  startTime : Nat
  alertedAdmin : Bool
  finalDecision : Option FinalDecision
deriving DecidableEq, Repr

/-- The global snippet_storage dict: snippet id to record, in insertion
order. -/
abbrev Store := List (String × SnippetEntry)

/-- Dict lookup: snippet_storage[sid] (first matching key). -/
def lookupSid (s : Store) (sid : String) : Option SnippetEntry :=
  (List.find? (fun p => p.1 = sid) s).map (fun p => p.2)

/-- snippet_storage.pop(sid, None): remove the key. -/
def eraseSid (s : Store) (sid : String) : Store :=
  List.filter (fun p => ¬ p.1 = sid) s

/-- snippet_storage[sid] = entry for a fresh uuid key: appended in insertion
order. -/
def insertSid (s : Store) (sid : String) (e : SnippetEntry) : Store :=
  s ++ [(sid, e)]

/-- entry["final_decision"] = d: the entry object held under sid is mutated
in place, so the store maps sid to the updated record (no effect when sid is
absent, matching a mutation of an already popped entry object). -/
def setDecisionSid (s : Store) (sid : String) (d : FinalDecision) : Store :=
  List.map (fun p => if p.1 = sid then (p.1, { p.2 with finalDecision := some d }) else p) s

/-- entry["expires_at"] = v, through the entry object held under sid. -/
def setExpiresSid (s : Store) (sid : String) (v : Nat) : Store :=
  List.map (fun p => if p.1 = sid then (p.1, { p.2 with expiresAt := v }) else p) s

/-- data["alerted_admin"] = True, through the entry object held under sid. -/
def setAlertedSid (s : Store) (sid : String) : Store :=
  List.map (fun p => if p.1 = sid then (p.1, { p.2 with alertedAdmin := true }) else p) s

/-- Number of records pending for a destination: entries whose channel and
thread match and whose final_decision is None. -/
def pendingCount (s : Store) (channel threadTs : String) : Nat :=
  (List.filter
    (fun p => p.2.channel = channel ∧ p.2.threadTs = threadTs ∧ p.2.finalDecision = none)
    s).length

/-- One Slack post_message call, by posting site. Text formatting details are
abstracted to the data the claims inspect; the runner and the confirm
handler each contain a posting site with the literal text Snippet executed
successfully, kept as two constructors to tell them apart. The four
runner-site constructors (snippetOutputNotice, outputBeforeCrash,
snippetCrashed, snippetExecutedRunner) model posts written in
core/snippets.py that are never actually made, since SlackService is
undefined in that module. -/
inductive Msg where
  | snippetTooLarge (channel threadTs : String) (nLines limit : Nat)
  | snippetProposed (channel threadTs sid : String)
  | snippetNotFoundNotice
  | snippetExpiredNoChanges (channel threadTs : String)
  | snippetCanceled (channel threadTs : String)
  | snippetExtended (channel threadTs : String) (newExpires : Nat)
  | snippetExecutedHandler (channel threadTs : String)
  | callableCreationFailed (channel threadTs : String)
  | snippetOutputNotice (channel threadTs out : String)
  | outputBeforeCrash (channel threadTs out : String)
  | snippetCrashed (channel threadTs err : String)
  | snippetExecutedRunner (channel threadTs : String)
  | watchdogWarning (channel threadTs sid : String) (age : Nat)
  | reaperExpiredNotice (channel threadTs sid : String)
deriving DecidableEq, Repr

/-- What running a created snippet callable does: the stdout text it prints,
and whether it returns normally or raises an exception carrying err. -/
inductive SnippetBehavior where
  | ok (out : String)
  | crash (out : String) (err : String)
deriving DecidableEq, Repr

/-- Python str.strip(): drop leading and trailing whitespace. -/
def pyStrip (s : String) : String :=
  String.mk (((s.data.dropWhile Char.isWhitespace).reverse.dropWhile Char.isWhitespace).reverse)

/-- Python str.lower(), character by character. -/
def pyLower (s : String) : String :=
  String.mk (s.data.map Char.toLower)

/-- Python s.split(sep) for a one-character separator: every occurrence of
the separator starts a new field, empty fields preserved. -/
def splitOnChar (sep : Char) : List Char → List (List Char)
  | [] => [[]]
  | c :: rest =>
    let r := splitOnChar sep rest
    if c = sep then [] :: r
    else
      match r with
      | [] => [[c]]
      | g :: gs => (c :: g) :: gs

/-- A Python exception propagating out of a modelled function. -/
inductive PyError where
  | nameError (name : String)
deriving DecidableEq, Repr

/-- core/snippets.py, SnippetsRunner.run_snippet_now (lines 17-67): capture
stdout and run the callable. The module imports only logging, TaskScheduler
and sys/io, so the name SlackService is undefined there and the first
SlackService() reference raises NameError before anything is posted: on a
payload exception inside the except handler at line 39 (nonempty stripped
output) or line 45 (the payload exception itself is caught, but reporting
it raises), and on a normal return in the else branch at line 54 or 60.
The finally block restores stdout and the NameError propagates to the
caller in every case: the function posts no message and never returns
normally. Result: the messages actually posted (none) and the propagating
error. -/
def runSnippetNow (b : SnippetBehavior) (_channel _threadTs : String) :
    List Msg × Option PyError :=
  match b with
  | .crash _ _ =>
      ([], some (PyError.nameError "SlackService"))
  | .ok _ =>
      ([], some (PyError.nameError "SlackService"))

/-- The snippet-related keys of bot_config (core/configs.py lines 287-294).
All keys are present in the shipped dict, so the bot_config.get fallback
defaults in bot_engine.py never apply. -/
structure BotConfig where
  snippetExpirationMinutes : Nat
  snippetLineLimit : Nat
  typedConfirmationMode : Bool
  snippetWatchdogSeconds : Nat
  adminWatchdogTimeoutSeconds : Nat
  forceBotTerminationOnSnippetFreeze : Bool
deriving DecidableEq, Repr

/-- The shipped default configuration (core/configs.py lines 288-293). -/
def defaultBotConfig : BotConfig where
  snippetExpirationMinutes := 5
  snippetLineLimit := 250
  typedConfirmationMode := true
  snippetWatchdogSeconds := 60
  adminWatchdogTimeoutSeconds := 10800
  forceBotTerminationOnSnippetFreeze := true

/-- snippet_code.strip().split("\n") line count used by the size check. -/
def countLines (code : String) : Nat :=
  (splitOnChar '\n' (pyStrip code).data).length

/-- The three typed lifecycle commands. -/
inductive TypedAction where
  | confirm
  | cancel
  | extend
deriving DecidableEq, Repr

/-- user_text.strip().lower() membership test in [confirm, cancel, extend]
(bot_engine.py lines 145-147 / snippet_manager.py lines 88-90). -/
def parseTypedCommand (text : String) : Option TypedAction :=
  let t := pyLower (pyStrip text)
  if t = "confirm" then some TypedAction.confirm
  else if t = "cancel" then some TypedAction.cancel
  else if t = "extend" then some TypedAction.extend
  else none

/-- The snippet lookup loop shared by both typed handlers (bot_engine.py
lines 149-157 / snippet_manager.py lines 92-99): scan the storage in order,
keep the id whose entry matches the destination, has final_decision None,
and has the strictly largest start_time seen so far. -/
def findBestSid (s : Store) (channel threadTs : String) : Option String :=
  (List.foldl
    (fun acc (p : String × SnippetEntry) =>
      if p.2.channel = channel ∧ p.2.threadTs = threadTs ∧ p.2.finalDecision = none then
        match acc with
        | none => some (p.1, p.2.startTime)
        | some best => if p.2.startTime > best.2 then some (p.1, p.2.startTime) else acc
      else acc)
    none s).map (fun best => best.1)

/-- The observable outcome of one typed action handler run: the updated
storage, the messages actually posted, the codes of payloads actually
executed, and the Python exception propagating out of the handler, if
any. -/
structure ActionResult where
  store : Store
  msgs : List Msg
  executed : List String
  err : Option PyError
deriving DecidableEq, Repr

namespace BotEngine

/-- core/bot_engine.py, BotEngine._apply_typed_action (lines 164-225).
cc models coder_manager.create_snippet_callable: applied to the stored code,
it yields some behavior when a callable was produced and none when creation
failed. In the confirm branch with a callable, run_snippet_now executes the
payload; the handler success post at lines 194-198 runs only if
run_snippet_now returns normally — since it always raises NameError, that
post is skipped and the exception propagates out of the handler. -/
def applyTypedAction (store : Store) (sid : String) (action : TypedAction) (now : Nat)
    (cc : String → Option SnippetBehavior) : ActionResult :=
  match lookupSid store sid with
  | none =>
    { store := store, msgs := [Msg.snippetNotFoundNotice], executed := [], err := none }
  | some entry =>
    if now > entry.expiresAt then
      { store := eraseSid store sid,
        msgs := [Msg.snippetExpiredNoChanges entry.channel entry.threadTs],
        executed := [], err := none }
    else
      match action with
      | TypedAction.confirm =>
        let store1 := eraseSid (setDecisionSid store sid FinalDecision.confirm) sid
        match cc entry.code with
        | some b =>
          let r := runSnippetNow b entry.channel entry.threadTs
          match r.2 with
          | some e =>
            { store := store1, msgs := r.1, executed := [entry.code], err := some e }
          | none =>
            { store := store1,
              msgs := r.1 ++ [Msg.snippetExecutedHandler entry.channel entry.threadTs],
              executed := [entry.code], err := none }
        | none =>
          { store := store1,
            msgs := [Msg.callableCreationFailed entry.channel entry.threadTs],
            executed := [], err := none }
      | TypedAction.cancel =>
        { store := eraseSid (setDecisionSid store sid FinalDecision.cancel) sid,
          msgs := [Msg.snippetCanceled entry.channel entry.threadTs],
          executed := [], err := none }
      | TypedAction.extend =>
        let newExpires := entry.expiresAt + 5 * 60
        { store := setExpiresSid store sid newExpires,
          msgs := [Msg.snippetExtended entry.channel entry.threadTs newExpires],
          executed := [], err := none }

/-- core/bot_engine.py, BotEngine._handle_typed_snippet_command (lines
144-162). none models return False (not a typed command, or no pending
snippet found for the destination); some carries the effect of
_apply_typed_action. -/
def handleTypedSnippetCommand (store : Store) (text channel threadTs : String) (now : Nat)
    (cc : String → Option SnippetBehavior) : Option ActionResult :=
  match parseTypedCommand text with
  | none => none
  | some action =>
    match findBestSid store channel threadTs with
    | none => none
    | some sid => some (applyTypedAction store sid action now cc)

/-- core/bot_engine.py, BotEngine._handle_coder_flow (lines 87-142).
snippetCode is the generation oracle output for user_text, snippetSummary
the review oracle output, sid the fresh uuid. Rejects with the too-large
notice and stores nothing when the stripped code exceeds the line limit;
otherwise stores a fresh pending record expiring in
snippet_expiration_minutes and posts the proposal notice. -/
def handleCoderFlow (cfg : BotConfig) (store : Store) (snippetCode snippetSummary : String)
    (userText channel threadTs roleInfo : String) (now : Nat) (sid : String) :
    Store × List Msg :=
  let nLines := countLines snippetCode
  if nLines > cfg.snippetLineLimit then
    (store, [Msg.snippetTooLarge channel threadTs nLines cfg.snippetLineLimit])
  else
    let entry : SnippetEntry :=
      { code := snippetCode
        summary := snippetSummary
        channel := channel
        threadTs := threadTs
        expiresAt := now + cfg.snippetExpirationMinutes * 60
        userRequest := userText
        initialRoleInfo := roleInfo
        startTime := now
        alertedAdmin := false
        finalDecision := none }
    (insertSid store sid entry, [Msg.snippetProposed channel threadTs sid])

/-- The result of the classification oracle, as read by
handle_incoming_slack_event: classification.get with its defaults. -/
structure Classification where
  requestType : String
  roleInfo : String
deriving DecidableEq, Repr

/-- What handle_incoming_slack_event does with an event, up to dispatch:
either step 1 handled the text as a typed snippet command (and step 2 never
ran), or step 2 invoked the classification oracle and dispatched on its
request_type. -/
inductive EngineOutcome where
  | typed (result : ActionResult)
  | classifiedDispatch (requestType : String)
deriving DecidableEq, Repr

/-- core/bot_engine.py, BotEngine.handle_incoming_slack_event (lines 46-75):
first attempt the typed snippet command path; only if it returns False is
the classification oracle consulted (classification is the answer that
oracle would give). -/
def handleIncomingSlackEvent (store : Store) (text channel threadTs : String) (now : Nat)
    (cc : String → Option SnippetBehavior) (classification : Classification) :
    EngineOutcome :=
  match handleTypedSnippetCommand store text channel threadTs now cc with
  | some res => EngineOutcome.typed res
  | none => EngineOutcome.classifiedDispatch classification.requestType

/-- One iteration batch of core/bot_engine.py, BotEngine._snippet_watchdog
(lines 252-278): the body of one while-True tick over
list(snippet_storage.items()). Returns the updated storage, the warnings
posted, and whether os._exit(1) was reached (in which case the remaining
entries are never visited). -/
def watchdogPass (cfg : BotConfig) (now : Nat) : Store → Store × List Msg × Bool
  | [] => ([], [], false)
  | (sid, data) :: rest =>
    if data.finalDecision ≠ none then
      let r := watchdogPass cfg now rest
      ((sid, data) :: r.1, r.2)
    else
      let age := now - data.startTime
      let warned :=
        if (¬ data.alertedAdmin) ∧ age > cfg.snippetWatchdogSeconds then
          ({ data with alertedAdmin := true },
           [Msg.watchdogWarning data.channel data.threadTs sid age])
        else (data, [])
      if cfg.forceBotTerminationOnSnippetFreeze ∧ age > cfg.adminWatchdogTimeoutSeconds then
        ((sid, warned.1) :: rest, warned.2, true)
      else
        let r := watchdogPass cfg now rest
        ((sid, warned.1) :: r.1, warned.2 ++ r.2.1, r.2.2)

/-- One iteration batch of core/bot_engine.py,
BotEngine._cleanup_expired_snippets (lines 285-297): for every entry past
expires_at, post the expiry notice when no final decision was taken, and
pop the entry either way. -/
def cleanupPass (now : Nat) : Store → Store × List Msg
  | [] => ([], [])
  | (sid, data) :: rest =>
    if now > data.expiresAt then
      let msgs :=
        if data.finalDecision = none then
          [Msg.reaperExpiredNotice data.channel data.threadTs sid]
        else []
      let r := cleanupPass now rest
      (r.1, msgs ++ r.2)
    else
      let r := cleanupPass now rest
      ((sid, data) :: r.1, r.2)

end BotEngine

namespace SnippetManager

/-- modules/snippet_manager.py, SnippetManager.propose_snippet (lines 36-81):
size check on the stripped code, then store a fresh pending record expiring
in snippet_expiration_minutes and post the proposal notice. sid is the fresh
uuid. -/
def proposeSnippet (cfg : BotConfig) (store : Store) (snippetCode snippetSummary : String)
    (userText channel threadTs roleInfo : String) (now : Nat) (sid : String) :
    Store × List Msg :=
  let nLines := countLines snippetCode
  if nLines > cfg.snippetLineLimit then
    (store, [Msg.snippetTooLarge channel threadTs nLines cfg.snippetLineLimit])
  else
    let entry : SnippetEntry :=
      { code := snippetCode
        summary := snippetSummary
        channel := channel
        threadTs := threadTs
        expiresAt := now + cfg.snippetExpirationMinutes * 60
        userRequest := userText
        initialRoleInfo := roleInfo
        startTime := now
        alertedAdmin := false
        finalDecision := none }
    (insertSid store sid entry, [Msg.snippetProposed channel threadTs sid])

/-- modules/snippet_manager.py, SnippetManager._apply_snippet_action (lines
107-146) together with _execute_snippet (lines 148-170), which the confirm
branch delegates to; same state machine as BotEngine._apply_typed_action.
The success post at lines 158-162 of _execute_snippet runs only if
run_snippet_now returns normally; the NameError raised inside
core/snippets.py skips it and propagates out of the handler. -/
def applySnippetAction (store : Store) (sid : String) (action : TypedAction) (now : Nat)
    (cc : String → Option SnippetBehavior) : ActionResult :=
  match lookupSid store sid with
  | none =>
    { store := store, msgs := [Msg.snippetNotFoundNotice], executed := [], err := none }
  | some entry =>
    if now > entry.expiresAt then
      { store := eraseSid store sid,
        msgs := [Msg.snippetExpiredNoChanges entry.channel entry.threadTs],
        executed := [], err := none }
    else
      match action with
      | TypedAction.confirm =>
        let store1 := eraseSid (setDecisionSid store sid FinalDecision.confirm) sid
        match cc entry.code with
        | some b =>
          let r := runSnippetNow b entry.channel entry.threadTs
          match r.2 with
          | some e =>
            { store := store1, msgs := r.1, executed := [entry.code], err := some e }
          | none =>
            { store := store1,
              msgs := r.1 ++ [Msg.snippetExecutedHandler entry.channel entry.threadTs],
              executed := [entry.code], err := none }
        | none =>
          { store := store1,
            msgs := [Msg.callableCreationFailed entry.channel entry.threadTs],
            executed := [], err := none }
      | TypedAction.cancel =>
        { store := eraseSid (setDecisionSid store sid FinalDecision.cancel) sid,
          msgs := [Msg.snippetCanceled entry.channel entry.threadTs],
          executed := [], err := none }
      | TypedAction.extend =>
        let newExpires := entry.expiresAt + 5 * 60
        { store := setExpiresSid store sid newExpires,
          msgs := [Msg.snippetExtended entry.channel entry.threadTs newExpires],
          executed := [], err := none }

/-- modules/snippet_manager.py, SnippetManager.handle_typed_command (lines
83-105): none models return False. -/
def handleTypedCommand (store : Store) (text channel threadTs : String) (now : Nat)
    (cc : String → Option SnippetBehavior) : Option ActionResult :=
  match parseTypedCommand text with
  | none => none
  | some action =>
    match findBestSid store channel threadTs with
    | none => none
    | some sid => some (applySnippetAction store sid action now cc)

end SnippetManager

namespace Race

/-!
A small interleaving model for the claim about racing terminalizers.
snippet_storage is a plain module-level dict shared by the Slack handler
thread and the two daemon threads; no lock guards the check-then-act
sequences, and CPython may preempt a thread between any two of them. Each
RStep is one atomic storage access or post batch taken from the source
lines; the typed-confirm actor and the reaper actor are each a fixed list of
steps (the branch they actually take in the modelled run), and a schedule is
any interleaving of the two lists. A failed guard marks the run invalid
(ok := false): such a schedule would have driven the actor into a different
branch and is not the run being modelled. -/

/-- Shared state: the storage, the Slack messages posted so far, the codes
of payloads executed so far, the exception propagating in the typed handler
thread (if any), and the validity flag of the modelled run. -/
structure RaceState where
  store : Store
  msgs : List Msg
  executed : List String
  err : Option PyError
  ok : Bool
deriving DecidableEq, Repr

/-- One atomic step of one of the two racing actors, at source granularity:
tCheck  = bot_engine.py lines 165-175 (membership test, entry load and
          expiry comparison at the typed handler clock reading, holding
          entry e);
tSetConfirm = line 185 (entry mutation through the held object);
tPop    = line 186 (snippet_storage.pop);
tExec   = lines 190-193 (callable created, run_snippet_now executes the
          payload with behavior b using the held entry e; its posts raise
          NameError inside core/snippets.py, so nothing is appended to the
          message log, the error aborts the typed handler, and the success
          post at lines 194-198 is never reached — tExec is therefore the
          last typed step);
rCheck  = lines 288-296 of _cleanup_expired_snippets (expiry and decision
          test at the reaper clock reading, posting the expiry notice);
rPop    = line 297 (snippet_storage.pop). -/
inductive RStep where
  | tCheck (sid : String) (e : SnippetEntry) (now : Nat)
  | tSetConfirm (sid : String)
  | tPop (sid : String)
  | tExec (e : SnippetEntry) (b : SnippetBehavior)
  | rCheck (sid : String) (now : Nat)
  | rPop (sid : String)
deriving DecidableEq, Repr

/-- Effect of one atomic step on the shared state. -/
def execStep (st : RaceState) : RStep → RaceState
  | RStep.tCheck sid e now =>
    if lookupSid st.store sid = some e ∧ ¬ now > e.expiresAt then st
    else { st with ok := false }
  | RStep.tSetConfirm sid => { st with store := setDecisionSid st.store sid FinalDecision.confirm }
  | RStep.tPop sid => { st with store := eraseSid st.store sid }
  | RStep.tExec e b =>
    let r := runSnippetNow b e.channel e.threadTs
    { st with msgs := st.msgs ++ r.1, executed := st.executed ++ [e.code], err := r.2 }
  | RStep.rCheck sid now =>
    match lookupSid st.store sid with
    | some d =>
      if now > d.expiresAt ∧ d.finalDecision = none then
        { st with msgs := st.msgs ++ [Msg.reaperExpiredNotice d.channel d.threadTs sid] }
      else { st with ok := false }
    | none => { st with ok := false }
  | RStep.rPop sid => { st with store := eraseSid st.store sid }

/-- Run a schedule of atomic steps. -/
def execSched (init : RaceState) (steps : List RStep) : RaceState :=
  List.foldl execStep init steps

/-- The steps the typed confirm handler performs on a non-expired entry e it
found under sid at its clock reading now, when callable creation yields b. -/
def typedConfirmProg (sid : String) (e : SnippetEntry) (now : Nat) (b : SnippetBehavior) :
    List RStep :=
  [RStep.tCheck sid e now, RStep.tSetConfirm sid, RStep.tPop sid, RStep.tExec e b]

/-- The steps the reaper performs on an expired undecided entry under sid at
its clock reading now. -/
def reaperProg (sid : String) (now : Nat) : List RStep :=
  [RStep.rCheck sid now, RStep.rPop sid]

/-- zs is an interleaving of xs and ys preserving the order within each. -/
inductive Interleave : List RStep → List RStep → List RStep → Prop where
  | nil : Interleave [] [] []
  | left {xs ys zs x} : Interleave xs ys zs → Interleave (x :: xs) ys (x :: zs)
  | right {xs ys zs y} : Interleave xs ys zs → Interleave xs (y :: ys) (y :: zs)

end Race

/-- Messages that read Snippet executed successfully, from either posting
site (the runner success notice and the handler success notice). -/
def isSuccessNotice : Msg → Bool
  | Msg.snippetExecutedRunner _ _ => true
  | Msg.snippetExecutedHandler _ _ => true
  | _ => false

/-! Helper lemmas about the store operations. -/

theorem lookupSid_erase_self (s : Store) (sid : String) :
    lookupSid (eraseSid s sid) sid = none := by
  induction s with
  | nil => rfl
  | cons p rest ih =>
    by_cases h : p.1 = sid
    · simp [eraseSid, h] at ih ⊢
      exact ih
    · simp [eraseSid, lookupSid, List.filter, List.find?, h] at ih ⊢

theorem lookupSid_map_key (s : Store) (sid : String) (f : SnippetEntry → SnippetEntry) :
    lookupSid (List.map (fun p => if p.1 = sid then (p.1, f p.2) else p) s) sid
      = (lookupSid s sid).map f := by
  induction s with
  | nil => rfl
  | cons p rest ih =>
    by_cases h : p.1 = sid
    · simp [lookupSid, List.find?, h]
    · simpa [lookupSid, List.find?, h] using ih

theorem lookupSid_setExpires (s : Store) (sid : String) (v : Nat) :
    lookupSid (setExpiresSid s sid v) sid
      = (lookupSid s sid).map (fun e => { e with expiresAt := v }) :=
  lookupSid_map_key s sid (fun e => { e with expiresAt := v })

theorem pendingCount_insert_match (s : Store) (sid : String) (e : SnippetEntry)
    (channel threadTs : String) (hc : e.channel = channel) (ht : e.threadTs = threadTs)
    (hd : e.finalDecision = none) :
    pendingCount (insertSid s sid e) channel threadTs = pendingCount s channel threadTs + 1 := by
  simp [pendingCount, insertSid, List.filter_append, hc, ht, hd]

/-- The record both propose paths store on acceptance (bot_engine.py lines
117-128 / snippet_manager.py lines 56-67). -/
def proposedEntry (code summary userText channel threadTs roleInfo : String)
    (cfg : BotConfig) (now : Nat) : SnippetEntry where
  code := code
  summary := summary
  channel := channel
  threadTs := threadTs
  expiresAt := now + cfg.snippetExpirationMinutes * 60
  userRequest := userText
  initialRoleInfo := roleInfo
  startTime := now
  alertedAdmin := false
  finalDecision := none

/-- A concrete stored record used by the closed witness statements. -/
def sampleEntry : SnippetEntry where
  code := "pass"
  summary := "s"
  channel := "C"
  threadTs := "T"
  expiresAt := 300
  userRequest := "r"
  initialRoleInfo := "N/A"
  startTime := 0
  alertedAdmin := false
  finalDecision := none

/-- A configuration with a tiny line limit, for the closed size-boundary
witness. -/
def tinyCfg : BotConfig :=
  { defaultBotConfig with snippetLineLimit := 1 }

/-- C4: for a record whose expiresAt has passed but which the reaper has not
yet swept, each of the three typed commands takes the expiry branch of the
action handler in both modules: the expired notice is posted, the record is
removed, and nothing else happens (in particular confirm does not execute
the payload, cancel does not report Canceled, extend does not push the
deadline). -/
theorem expired_command_yields_expired_and_removes
    (store : Store) (sid : String) (e : SnippetEntry) (now : Nat)
    (cc : String → Option SnippetBehavior) (action : TypedAction)
    (hl : lookupSid store sid = some e) (hx : now > e.expiresAt) :
    BotEngine.applyTypedAction store sid action now cc
      = { store := eraseSid store sid,
          msgs := [Msg.snippetExpiredNoChanges e.channel e.threadTs],
          executed := [], err := none } ∧
    SnippetManager.applySnippetAction store sid action now cc
      = { store := eraseSid store sid,
          msgs := [Msg.snippetExpiredNoChanges e.channel e.threadTs],
          executed := [], err := none } ∧
    lookupSid (eraseSid store sid) sid = none := by
  refine ⟨?_, ?_, lookupSid_erase_self store sid⟩ <;>
    simp [BotEngine.applyTypedAction, SnippetManager.applySnippetAction, hl, hx]

theorem expired_command_yields_expired_and_removes_witness :
    lookupSid [("P1", sampleEntry)] "P1" = some sampleEntry ∧ 301 > sampleEntry.expiresAt ∧
    (BotEngine.applyTypedAction [("P1", sampleEntry)] "P1" TypedAction.confirm 301 (fun _ => none)
      = { store := eraseSid [("P1", sampleEntry)] "P1",
          msgs := [Msg.snippetExpiredNoChanges "C" "T"], executed := [], err := none } ∧
    SnippetManager.applySnippetAction [("P1", sampleEntry)] "P1" TypedAction.confirm 301
        (fun _ => none)
      = { store := eraseSid [("P1", sampleEntry)] "P1",
          msgs := [Msg.snippetExpiredNoChanges "C" "T"], executed := [], err := none } ∧
    lookupSid (eraseSid [("P1", sampleEntry)] "P1") "P1" = none) :=
  ⟨by decide, by decide,
    expired_command_yields_expired_and_removes [("P1", sampleEntry)] "P1" sampleEntry 301
      (fun _ => none) TypedAction.confirm (by decide) (by decide)⟩

/-- C9 (code evaluated at the failing input): handing the executor a
confirmed payload that prints hi and then raises ValueError boom surfaces
nothing at all — no partial-output post, no failure notice — and a NameError
over the undefined name SlackService propagates out of run_snippet_now; a
payload that prints hi and returns normally fares the same. This is the
behavior the docstring of run_snippet_now itself promises to avoid; the
missing import breaks it on every run. -/
theorem executor_nameerror_escapes :
    runSnippetNow (SnippetBehavior.crash "hi" "ValueError: boom") "C" "T"
      = ([], some (PyError.nameError "SlackService")) ∧
    runSnippetNow (SnippetBehavior.ok "hi") "C" "T"
      = ([], some (PyError.nameError "SlackService")) :=
  ⟨rfl, rfl⟩

/-- C10 (counterexample): confirming the pending record at 299 s with a
callable that runs successfully posts zero notices, not two: the record is
removed and the payload executes, but run_snippet_now raises NameError
before its success post, the handler post at bot_engine.py line 194 is
never reached, and the error propagates out of the handler. -/
theorem confirm_success_posts_nothing :
    BotEngine.applyTypedAction [("P1", sampleEntry)] "P1" TypedAction.confirm 299
        (fun _ => some (SnippetBehavior.ok ""))
      = { store := [], msgs := [], executed := ["pass"],
          err := some (PyError.nameError "SlackService") } ∧
    ((BotEngine.applyTypedAction [("P1", sampleEntry)] "P1" TypedAction.confirm 299
        (fun _ => some (SnippetBehavior.ok ""))).msgs.filter
          (fun m => isSuccessNotice m)).length = 0 := by
  refine ⟨by decide, by decide⟩

/-- C10 (amended): when confirm finds a non-expired record and callable
creation succeeds, the handler removes the record and runs the payload, but
the destination receives no execution notices at all — whatever the payload
does, run_snippet_now posts nothing and raises NameError, so the
unconditional handler success post after it is never reached and the error
propagates out of the confirm handler; the snippet_manager variant behaves
identically. -/
theorem confirm_posts_no_execution_notice
    (store : Store) (sid : String) (e : SnippetEntry) (now : Nat)
    (cc : String → Option SnippetBehavior) (b : SnippetBehavior)
    (hl : lookupSid store sid = some e) (hn : ¬ now > e.expiresAt)
    (hb : cc e.code = some b) :
    BotEngine.applyTypedAction store sid TypedAction.confirm now cc
      = { store := eraseSid (setDecisionSid store sid FinalDecision.confirm) sid,
          msgs := [], executed := [e.code],
          err := some (PyError.nameError "SlackService") } ∧
    SnippetManager.applySnippetAction store sid TypedAction.confirm now cc
      = { store := eraseSid (setDecisionSid store sid FinalDecision.confirm) sid,
          msgs := [], executed := [e.code],
          err := some (PyError.nameError "SlackService") } := by
  cases b <;>
    simp [BotEngine.applyTypedAction, SnippetManager.applySnippetAction, hl, hn, hb,
      runSnippetNow]

theorem confirm_posts_no_execution_notice_witness :
    lookupSid [("P1", sampleEntry)] "P1" = some sampleEntry ∧
    ¬ (299 : Nat) > sampleEntry.expiresAt ∧
    (fun _ : String => some (SnippetBehavior.ok "")) sampleEntry.code
      = some (SnippetBehavior.ok "") ∧
    (BotEngine.applyTypedAction [("P1", sampleEntry)] "P1" TypedAction.confirm 299
        (fun _ => some (SnippetBehavior.ok ""))
      = { store := eraseSid (setDecisionSid [("P1", sampleEntry)] "P1" FinalDecision.confirm) "P1",
          msgs := [], executed := [sampleEntry.code],
          err := some (PyError.nameError "SlackService") } ∧
    SnippetManager.applySnippetAction [("P1", sampleEntry)] "P1" TypedAction.confirm 299
        (fun _ => some (SnippetBehavior.ok ""))
      = { store := eraseSid (setDecisionSid [("P1", sampleEntry)] "P1" FinalDecision.confirm) "P1",
          msgs := [], executed := [sampleEntry.code],
          err := some (PyError.nameError "SlackService") }) :=
  ⟨by decide, by decide, rfl,
    confirm_posts_no_execution_notice [("P1", sampleEntry)] "P1" sampleEntry 299
      (fun _ => some (SnippetBehavior.ok "")) (SnippetBehavior.ok "")
      (by decide) (by decide) rfl⟩

/-- C6: the size admission boundary in both propose paths: a payload whose
stripped line count is exactly the configured limit is accepted (the pending
record is appended to the storage and the proposal notice posted), while one
line over the limit is rejected with the too-large notice and the storage is
left unchanged. -/
theorem size_admission_boundary
    (cfg : BotConfig) (store : Store)
    (codeA codeB summary userText channel threadTs roleInfo : String)
    (now : Nat) (sid : String)
    (hA : countLines codeA = cfg.snippetLineLimit)
    (hB : countLines codeB = cfg.snippetLineLimit + 1) :
    SnippetManager.proposeSnippet cfg store codeA summary userText channel threadTs roleInfo now sid
      = (insertSid store sid (proposedEntry codeA summary userText channel threadTs roleInfo cfg now),
         [Msg.snippetProposed channel threadTs sid]) ∧
    BotEngine.handleCoderFlow cfg store codeA summary userText channel threadTs roleInfo now sid
      = (insertSid store sid (proposedEntry codeA summary userText channel threadTs roleInfo cfg now),
         [Msg.snippetProposed channel threadTs sid]) ∧
    SnippetManager.proposeSnippet cfg store codeB summary userText channel threadTs roleInfo now sid
      = (store, [Msg.snippetTooLarge channel threadTs (cfg.snippetLineLimit + 1) cfg.snippetLineLimit]) ∧
    BotEngine.handleCoderFlow cfg store codeB summary userText channel threadTs roleInfo now sid
      = (store, [Msg.snippetTooLarge channel threadTs (cfg.snippetLineLimit + 1) cfg.snippetLineLimit]) ∧
    (proposedEntry codeA summary userText channel threadTs roleInfo cfg now).finalDecision = none := by
  refine ⟨?_, ?_, ?_, ?_, rfl⟩ <;>
    simp [SnippetManager.proposeSnippet, BotEngine.handleCoderFlow, proposedEntry, hA, hB,
      Nat.lt_succ_self, lt_self_iff_false]

theorem size_admission_boundary_witness :
    countLines "a" = tinyCfg.snippetLineLimit ∧
    countLines "a\nb" = tinyCfg.snippetLineLimit + 1 ∧
    (SnippetManager.proposeSnippet tinyCfg [] "a" "s" "r" "C" "T" "N" 0 "P1"
      = (insertSid [] "P1" (proposedEntry "a" "s" "r" "C" "T" "N" tinyCfg 0),
         [Msg.snippetProposed "C" "T" "P1"]) ∧
    BotEngine.handleCoderFlow tinyCfg [] "a" "s" "r" "C" "T" "N" 0 "P1"
      = (insertSid [] "P1" (proposedEntry "a" "s" "r" "C" "T" "N" tinyCfg 0),
         [Msg.snippetProposed "C" "T" "P1"]) ∧
    SnippetManager.proposeSnippet tinyCfg [] "a\nb" "s" "r" "C" "T" "N" 0 "P1"
      = ([], [Msg.snippetTooLarge "C" "T" (tinyCfg.snippetLineLimit + 1) tinyCfg.snippetLineLimit]) ∧
    BotEngine.handleCoderFlow tinyCfg [] "a\nb" "s" "r" "C" "T" "N" 0 "P1"
      = ([], [Msg.snippetTooLarge "C" "T" (tinyCfg.snippetLineLimit + 1) tinyCfg.snippetLineLimit]) ∧
    (proposedEntry "a" "s" "r" "C" "T" "N" tinyCfg 0).finalDecision = none) :=
  ⟨by decide, by decide,
    size_admission_boundary tinyCfg [] "a" "a\nb" "s" "r" "C" "T" "N" 0 "P1"
      (by decide) (by decide)⟩

/-- A sequence of typed extend commands applied through
BotEngine._apply_typed_action, one per clock reading in the list. -/
def extendTimes (sid : String) (cc : String → Option SnippetBehavior) :
    Store → List Nat → Store
  | store, [] => store
  | store, t :: ts =>
    extendTimes sid cc (BotEngine.applyTypedAction store sid TypedAction.extend t cc).store ts

theorem extendTimes_lookup (sid : String) (cc : String → Option SnippetBehavior)
    (times : List Nat) :
    ∀ (store : Store) (e : SnippetEntry), lookupSid store sid = some e →
      (∀ t ∈ times, t ≤ e.expiresAt) →
      lookupSid (extendTimes sid cc store times) sid
        = some { e with expiresAt := e.expiresAt + 5 * 60 * times.length } := by
  induction times with
  | nil =>
    intro store e hl _
    simpa using hl
  | cons t ts ih =>
    intro store e hl ht
    have hguard : ¬ t > e.expiresAt := by
      have := ht t (by simp)
      omega
    have hstep : (BotEngine.applyTypedAction store sid TypedAction.extend t cc).store
        = setExpiresSid store sid (e.expiresAt + 5 * 60) := by
      simp [BotEngine.applyTypedAction, hl, hguard]
    have hl' : lookupSid (setExpiresSid store sid (e.expiresAt + 5 * 60)) sid
        = some { e with expiresAt := e.expiresAt + 5 * 60 } := by
      rw [lookupSid_setExpires, hl]
      rfl
    have ht' : ∀ u ∈ ts, u ≤ ({ e with expiresAt := e.expiresAt + 5 * 60 } : SnippetEntry).expiresAt := by
      intro u hu
      have := ht u (by simp [hu])
      simp only
      omega
    have := ih (setExpiresSid store sid (e.expiresAt + 5 * 60))
      { e with expiresAt := e.expiresAt + 5 * 60 } hl' ht'
    rw [extendTimes, hstep, this]
    have harith : e.expiresAt + 5 * 60 + 5 * 60 * ts.length
        = e.expiresAt + 5 * 60 * (t :: ts).length := by
      simp [List.length_cons]
      ring
    simp only [harith]

/-- C7: on a non-expired pending record, each typed extend pushes expiresAt
forward by exactly the fixed five-minute increment of the source
(timedelta(minutes=5)), so n successive extends at times before the original
deadline leave the record with expiresAt increased by exactly n increments;
expiresAt never decreases, n of at least one strictly increases it, and
neither final_decision nor alerted_admin is touched. -/
theorem extend_monotonic_increment
    (store : Store) (sid : String) (e : SnippetEntry) (cc : String → Option SnippetBehavior)
    (times : List Nat)
    (hl : lookupSid store sid = some e) (ht : ∀ t ∈ times, t ≤ e.expiresAt) :
    lookupSid (extendTimes sid cc store times) sid
      = some { e with expiresAt := e.expiresAt + 5 * 60 * times.length } ∧
    e.expiresAt ≤ e.expiresAt + 5 * 60 * times.length ∧
    (times ≠ [] → e.expiresAt < e.expiresAt + 5 * 60 * times.length) ∧
    ({ e with expiresAt := e.expiresAt + 5 * 60 * times.length } : SnippetEntry).finalDecision
      = e.finalDecision ∧
    ({ e with expiresAt := e.expiresAt + 5 * 60 * times.length } : SnippetEntry).alertedAdmin
      = e.alertedAdmin := by
  refine ⟨extendTimes_lookup sid cc times store e hl ht, by omega, ?_, rfl, rfl⟩
  intro hne
  have : times.length ≠ 0 := by
    intro h0
    exact hne (List.length_eq_zero.mp h0)
  omega

theorem extend_monotonic_increment_witness :
    lookupSid [("P1", sampleEntry)] "P1" = some sampleEntry ∧
    (∀ t ∈ [(10 : Nat), 20], t ≤ sampleEntry.expiresAt) ∧
    lookupSid (extendTimes "P1" (fun _ => none) [("P1", sampleEntry)] [10, 20]) "P1"
      = some { sampleEntry with expiresAt := sampleEntry.expiresAt + 5 * 60 * 2 } :=
  ⟨by decide, by decide,
    (extend_monotonic_increment [("P1", sampleEntry)] "P1" sampleEntry (fun _ => none)
      [10, 20] (by decide) (by decide)).1⟩

/-- The store left by a first accepted propose for destination channel C,
thread T. -/
def c2store1 : Store :=
  (BotEngine.handleCoderFlow defaultBotConfig [] "pass" "s" "r" "C" "T" "N/A" 0 "A").1

/-- C2 (counterexample): with one proposal already pending for destination
(C, T), a second coder-flow propose for the same destination is not rejected:
it posts a second proposal notice and stores a second record, leaving two
records pending for the destination at once. -/
theorem duplicate_propose_not_rejected :
    pendingCount c2store1 "C" "T" = 1 ∧
    BotEngine.handleCoderFlow defaultBotConfig c2store1 "pass" "s" "r" "C" "T" "N/A" 1 "B"
      = (insertSid c2store1 "B" (proposedEntry "pass" "s" "r" "C" "T" "N/A" defaultBotConfig 1),
         [Msg.snippetProposed "C" "T" "B"]) ∧
    pendingCount
        (insertSid c2store1 "B" (proposedEntry "pass" "s" "r" "C" "T" "N/A" defaultBotConfig 1))
        "C" "T" = 2 := by
  refine ⟨by decide, by decide, by decide⟩

/-- C2 (amended): BotEngine._handle_coder_flow performs no admission check
against already-pending proposals: every size-accepted propose appends a
fresh pending record for its destination and posts the proposal notice,
incrementing the destination pending count no matter how many records are
already pending there. -/
theorem propose_appends_pending_unconditionally
    (cfg : BotConfig) (store : Store)
    (code summary userText channel threadTs roleInfo : String) (now : Nat) (sid : String)
    (h : ¬ countLines code > cfg.snippetLineLimit) :
    BotEngine.handleCoderFlow cfg store code summary userText channel threadTs roleInfo now sid
      = (insertSid store sid (proposedEntry code summary userText channel threadTs roleInfo cfg now),
         [Msg.snippetProposed channel threadTs sid]) ∧
    pendingCount
        (insertSid store sid (proposedEntry code summary userText channel threadTs roleInfo cfg now))
        channel threadTs
      = pendingCount store channel threadTs + 1 := by
  constructor
  · simp [BotEngine.handleCoderFlow, proposedEntry, h]
  · exact pendingCount_insert_match store sid _ channel threadTs rfl rfl rfl

theorem propose_appends_pending_unconditionally_witness :
    ¬ countLines "pass" > defaultBotConfig.snippetLineLimit ∧
    (BotEngine.handleCoderFlow defaultBotConfig c2store1 "pass" "s" "r" "C" "T" "N/A" 1 "B"
      = (insertSid c2store1 "B" (proposedEntry "pass" "s" "r" "C" "T" "N/A" defaultBotConfig 1),
         [Msg.snippetProposed "C" "T" "B"]) ∧
    pendingCount
        (insertSid c2store1 "B" (proposedEntry "pass" "s" "r" "C" "T" "N/A" defaultBotConfig 1))
        "C" "T"
      = pendingCount c2store1 "C" "T" + 1) :=
  ⟨by decide,
    propose_appends_pending_unconditionally defaultBotConfig c2store1 "pass" "s" "r" "C" "T"
      "N/A" 1 "B" (by decide)⟩

/-- A pending record proposed at time 0 whose watchdog warning has already
fired. -/
def c3entry : SnippetEntry :=
  { sampleEntry with alertedAdmin := true }

/-- C3 (counterexample): force_bot_termination_on_snippet_freeze is True in
the shipped default configuration, and one watchdog tick on an untouched
default configuration does reach os._exit once a pending record is older
than the hard timeout (10800 s): the claim that the flag is never enabled by
default is false on the code. -/
theorem default_config_force_terminate_enabled :
    defaultBotConfig.forceBotTerminationOnSnippetFreeze = true ∧
    (BotEngine.watchdogPass defaultBotConfig 10801 [("P1", c3entry)]).2.2 = true := by
  refine ⟨rfl, by decide⟩

/-- C3 (amended): the watchdog reaches forced termination only when the
policy flag is enabled and some undecided record is older than the
configured hard timeout — but that flag defaults to enabled, so the untouched
default configuration does terminate on such a record. -/
theorem watchdog_terminates_only_if_flag_and_timeout
    (cfg : BotConfig) (now : Nat) (store : Store)
    (h : (BotEngine.watchdogPass cfg now store).2.2 = true) :
    cfg.forceBotTerminationOnSnippetFreeze = true ∧
    ∃ p ∈ store, p.2.finalDecision = none ∧
      now - p.2.startTime > cfg.adminWatchdogTimeoutSeconds := by
  induction store with
  | nil => simp [BotEngine.watchdogPass] at h
  | cons q rest ih =>
    obtain ⟨sid, data⟩ := q
    by_cases hd : data.finalDecision = none
    · by_cases hterm : cfg.forceBotTerminationOnSnippetFreeze
          ∧ now - data.startTime > cfg.adminWatchdogTimeoutSeconds
      · exact ⟨by simp [hterm.1], ⟨(sid, data), by simp, hd, hterm.2⟩⟩
      · have h' : (BotEngine.watchdogPass cfg now rest).2.2 = true := by
          simpa [BotEngine.watchdogPass, hd, hterm] using h
        obtain ⟨hflag, p, hp, hp1, hp2⟩ := ih h'
        exact ⟨hflag, p, List.mem_cons_of_mem _ hp, hp1, hp2⟩
    · have h' : (BotEngine.watchdogPass cfg now rest).2.2 = true := by
        simpa [BotEngine.watchdogPass, hd] using h
      obtain ⟨hflag, p, hp, hp1, hp2⟩ := ih h'
      exact ⟨hflag, p, List.mem_cons_of_mem _ hp, hp1, hp2⟩

theorem watchdog_terminates_only_if_flag_and_timeout_witness :
    (BotEngine.watchdogPass defaultBotConfig 10801 [("P1", c3entry)]).2.2 = true ∧
    (defaultBotConfig.forceBotTerminationOnSnippetFreeze = true ∧
     ∃ p ∈ [("P1", c3entry)], p.2.finalDecision = none ∧
       10801 - p.2.startTime > defaultBotConfig.adminWatchdogTimeoutSeconds) :=
  ⟨by decide,
    watchdog_terminates_only_if_flag_and_timeout defaultBotConfig 10801 [("P1", c3entry)]
      (by decide)⟩

/-- C5 (counterexample): the raw text confirm is a reserved keyword, yet
with no pending proposal for the destination the router does consult the
classification oracle: _handle_typed_snippet_command returns False when its
pending-record lookup finds nothing, and handle_incoming_slack_event falls
through to classification. -/
theorem keyword_without_pending_classified :
    parseTypedCommand "confirm" = some TypedAction.confirm ∧
    BotEngine.handleIncomingSlackEvent [] "confirm" "C" "T" 0 (fun _ => none)
        { requestType := "ASKTHEWORLD", roleInfo := "default" }
      = BotEngine.EngineOutcome.classifiedDispatch "ASKTHEWORLD" := by
  refine ⟨by decide, by decide⟩

/-- C5 (amended): a message whose stripped, lowercased text is one of the
three reserved keywords bypasses classification exactly when the pending
lookup finds a record for its destination; when the lookup finds none, the
keyword message is handed to the classification oracle like any other
text. -/
theorem keyword_bypass_requires_pending
    (store : Store) (text channel threadTs : String) (now : Nat)
    (cc : String → Option SnippetBehavior) (classification : BotEngine.Classification)
    (a : TypedAction)
    (hp : parseTypedCommand text = some a) :
    (∀ sid, findBestSid store channel threadTs = some sid →
      BotEngine.handleIncomingSlackEvent store text channel threadTs now cc classification
        = BotEngine.EngineOutcome.typed (BotEngine.applyTypedAction store sid a now cc)) ∧
    (findBestSid store channel threadTs = none →
      BotEngine.handleIncomingSlackEvent store text channel threadTs now cc classification
        = BotEngine.EngineOutcome.classifiedDispatch classification.requestType) := by
  constructor
  · intro sid hf
    simp [BotEngine.handleIncomingSlackEvent, BotEngine.handleTypedSnippetCommand, hp, hf]
  · intro hf
    simp [BotEngine.handleIncomingSlackEvent, BotEngine.handleTypedSnippetCommand, hp, hf]

theorem keyword_bypass_requires_pending_witness :
    parseTypedCommand "confirm" = some TypedAction.confirm ∧
    findBestSid [("P1", sampleEntry)] "C" "T" = some "P1" ∧
    BotEngine.handleIncomingSlackEvent [("P1", sampleEntry)] "confirm" "C" "T" 0 (fun _ => none)
        { requestType := "CODER", roleInfo := "default" }
      = BotEngine.EngineOutcome.typed
          (BotEngine.applyTypedAction [("P1", sampleEntry)] "P1" TypedAction.confirm 0
            (fun _ => none)) :=
  ⟨by decide, by decide,
    (keyword_bypass_requires_pending [("P1", sampleEntry)] "confirm" "C" "T" 0 (fun _ => none)
      { requestType := "CODER", roleInfo := "default" } TypedAction.confirm (by decide)).1
      "P1" (by decide)⟩

/-- The record stored by the scenario propose at time t0 under the default
five-minute expiry window. -/
def c8entry (t0 : Nat) : SnippetEntry :=
  proposedEntry "print(1)" "sum" "req" "C" "T" "N/A" defaultBotConfig t0

/-- The callable oracle of the scenario: creation succeeds and the snippet
runs silently. -/
def c8cc : String → Option SnippetBehavior :=
  fun _ => some (SnippetBehavior.ok "")

/-- C8 (counterexample): at t0 = 0 with the default five-minute window, the
extend handled at t0+4m sets expiresAt to t0+600 s = t0+10m — not t0+9m as
claimed, because the source adds the increment to the old deadline, not to
the command time — and the subsequent confirm at t0+9m+1s = 541 s finds the
record not yet expired, removes it and executes the payload instead of
reporting it expired. -/
theorem extend_anchors_at_deadline_not_command_time :
    SnippetManager.handleTypedCommand [("P1", c8entry 0)] "extend" "C" "T" 240 c8cc
      = some { store := [("P1", { c8entry 0 with expiresAt := 600 })],
               msgs := [Msg.snippetExtended "C" "T" 600], executed := [], err := none } ∧
    (600 : Nat) ≠ 540 ∧
    SnippetManager.handleTypedCommand [("P1", { c8entry 0 with expiresAt := 600 })]
        "confirm" "C" "T" 541 c8cc
      = some { store := [], msgs := [], executed := ["print(1)"],
               err := some (PyError.nameError "SlackService") } := by
  refine ⟨by decide, by decide, by decide⟩

/-- The scenario record after the extend at t0+4m: expiresAt pushed to
t0+600. -/
def c8entryExt (t0 : Nat) : SnippetEntry :=
  { c8entry t0 with expiresAt := t0 + 600 }

/-- C8 (amended): for every t0, proposing at t0 stores the record pending
with expiresAt = t0+5m; the extend handled at t0+4m pushes expiresAt to
t0+10m (old deadline plus the five-minute increment) with the record still
pending; and a confirm handled at t0+10m+1s reports the snippet expired and
removes the record without executing the payload. -/
theorem expiry_scenario_extend_then_confirm (t0 : Nat) :
    SnippetManager.proposeSnippet defaultBotConfig [] "print(1)" "sum" "req" "C" "T" "N/A" t0 "P1"
      = ([("P1", c8entry t0)], [Msg.snippetProposed "C" "T" "P1"]) ∧
    (c8entry t0).expiresAt = t0 + 5 * 60 ∧
    (c8entry t0).finalDecision = none ∧
    SnippetManager.handleTypedCommand [("P1", c8entry t0)] "extend" "C" "T" (t0 + 240) c8cc
      = some { store := [("P1", c8entryExt t0)],
               msgs := [Msg.snippetExtended "C" "T" (t0 + 600)], executed := [], err := none } ∧
    (c8entryExt t0).finalDecision = none ∧
    SnippetManager.handleTypedCommand [("P1", c8entryExt t0)] "confirm" "C" "T" (t0 + 601) c8cc
      = some { store := [], msgs := [Msg.snippetExpiredNoChanges "C" "T"],
               executed := [], err := none } := by
  have hsize : ¬ countLines "print(1)" > defaultBotConfig.snippetLineLimit := by decide
  have hparseE : parseTypedCommand "extend" = some TypedAction.extend := by decide
  have hparseC : parseTypedCommand "confirm" = some TypedAction.confirm := by decide
  have hfind : findBestSid [("P1", c8entry t0)] "C" "T" = some "P1" := by
    simp [findBestSid, c8entry, proposedEntry]
  have hfind2 : findBestSid [("P1", c8entryExt t0)] "C" "T" = some "P1" := by
    simp [findBestSid, c8entryExt, c8entry, proposedEntry]
  have hlook : lookupSid [("P1", c8entry t0)] "P1" = some (c8entry t0) := by
    simp [lookupSid, List.find?]
  have hlook2 : lookupSid [("P1", c8entryExt t0)] "P1" = some (c8entryExt t0) := by
    simp [lookupSid, List.find?]
  have hexpiry : (c8entry t0).expiresAt = t0 + 5 * 60 := by
    simp [c8entry, proposedEntry, defaultBotConfig]
  refine ⟨?_, hexpiry, rfl, ?_, rfl, ?_⟩
  · simp [SnippetManager.proposeSnippet, hsize, insertSid, c8entry, proposedEntry]
  · have hne : ¬ t0 + 240 > (c8entry t0).expiresAt := by
      rw [hexpiry]
      omega
    have hval : (c8entry t0).expiresAt + 5 * 60 = t0 + 600 := by
      rw [hexpiry]
    simp only [SnippetManager.handleTypedCommand, hparseE, hfind,
      SnippetManager.applySnippetAction, hlook, if_neg hne, hval]
    simp [setExpiresSid, c8entryExt, c8entry, proposedEntry]
  · have hx : t0 + 601 > (c8entryExt t0).expiresAt := by
      simp [c8entryExt]
    simp only [SnippetManager.handleTypedCommand, hparseC, hfind2,
      SnippetManager.applySnippetAction, hlook2, if_pos hx]
    simp [eraseSid, c8entryExt, c8entry, proposedEntry]

/-- The typed-confirm actor program of the modelled race: the handler found
sampleEntry under P1 at its clock reading 299 s (one second before expiry)
and callable creation succeeds with a silent snippet. -/
def raceTypedProg : List Race.RStep :=
  Race.typedConfirmProg "P1" sampleEntry 299 (SnippetBehavior.ok "")

/-- The reaper actor program of the modelled race: its tick reads the clock
at 301 s, one second after expiry. -/
def raceReaperProg : List Race.RStep :=
  Race.reaperProg "P1" 301

/-- The interleaving in which the typed handler passes its expiry check,
is preempted, the reaper then expires and pops the record, and the typed
handler resumes and executes the snippet anyway. -/
def raceSchedule : List Race.RStep :=
  [Race.RStep.tCheck "P1" sampleEntry 299, Race.RStep.rCheck "P1" 301, Race.RStep.rPop "P1",
   Race.RStep.tSetConfirm "P1", Race.RStep.tPop "P1",
   Race.RStep.tExec sampleEntry (SnippetBehavior.ok "")]

/-- The shared state at the start of the race: one pending record. -/
def raceInit : Race.RaceState :=
  { store := [("P1", sampleEntry)], msgs := [], executed := [], err := none, ok := true }

/-- C1 (counterexample): snippet_storage has no lock, so the check-then-act
sequences of the typed confirm handler and the expiry reaper can interleave.
raceSchedule is a valid interleaving of the two actor programs in which
every guard passes, yet both actors commit a terminal resolution of the
same record: the reaper posts its expiry notification and removes the
record, and the resumed confirm handler still executes the payload (whose
own notices are then lost to the NameError in run_snippet_now). One
proposal id is both reported expired and actually run — two terminal
commits, not exactly one. -/
theorem confirm_reaper_race_double_commit :
    Race.Interleave raceTypedProg raceReaperProg raceSchedule ∧
    (Race.execSched raceInit raceSchedule).ok = true ∧
    Msg.reaperExpiredNotice "C" "T" "P1" ∈ (Race.execSched raceInit raceSchedule).msgs ∧
    sampleEntry.code ∈ (Race.execSched raceInit raceSchedule).executed := by
  refine ⟨?_, by decide, by decide, by decide⟩
  exact Race.Interleave.left (Race.Interleave.right (Race.Interleave.right
    (Race.Interleave.left (Race.Interleave.left (Race.Interleave.left Race.Interleave.nil)))))

/-- C1 (amended): when the two actors do not interleave, exactly one of
them commits a terminal resolution: run atomically in either order on a
store holding one pending record, the first actor wins and the other does
nothing. A winning confirm removes the record and executes the payload —
posting nothing, since run_snippet_now raises NameError before any post —
and the reaper pass then finds an empty store and posts nothing; after a
winning reaper, which expires the record with the one expiry notification,
the typed handler finds no pending record and returns False without
posting or executing. -/
theorem serialized_terminalization_exactly_once
    (sid : String) (e : SnippetEntry) (now1 now2 : Nat)
    (cc : String → Option SnippetBehavior) (b : SnippetBehavior)
    (hd : e.finalDecision = none) (h1 : ¬ now1 > e.expiresAt) (h2 : now2 > e.expiresAt)
    (hb : cc e.code = some b) :
    (BotEngine.applyTypedAction [(sid, e)] sid TypedAction.confirm now1 cc).store = [] ∧
    (BotEngine.applyTypedAction [(sid, e)] sid TypedAction.confirm now1 cc).executed
      = [e.code] ∧
    (BotEngine.applyTypedAction [(sid, e)] sid TypedAction.confirm now1 cc).msgs = [] ∧
    BotEngine.cleanupPass now2
        (BotEngine.applyTypedAction [(sid, e)] sid TypedAction.confirm now1 cc).store
      = ([], []) ∧
    BotEngine.cleanupPass now2 [(sid, e)]
      = ([], [Msg.reaperExpiredNotice e.channel e.threadTs sid]) ∧
    BotEngine.handleTypedSnippetCommand (BotEngine.cleanupPass now2 [(sid, e)]).1
        "confirm" e.channel e.threadTs now1 cc = none := by
  have hl : lookupSid [(sid, e)] sid = some e := by
    simp [lookupSid, List.find?]
  have hres : BotEngine.applyTypedAction [(sid, e)] sid TypedAction.confirm now1 cc
      = { store := [], msgs := [], executed := [e.code],
          err := some (PyError.nameError "SlackService") } := by
    cases b <;>
      simp [BotEngine.applyTypedAction, hl, h1, hb, runSnippetNow,
        eraseSid, setDecisionSid, List.filter]
  have hreap : BotEngine.cleanupPass now2 [(sid, e)]
      = ([], [Msg.reaperExpiredNotice e.channel e.threadTs sid]) := by
    simp [BotEngine.cleanupPass, h2, hd]
  refine ⟨?_, ?_, ?_, ?_, hreap, ?_⟩
  · rw [hres]
  · rw [hres]
  · rw [hres]
  · rw [hres]
    rfl
  · rw [hreap]
    simp only [BotEngine.handleTypedSnippetCommand, parseTypedCommand, findBestSid,
      List.foldl_nil, Option.map_none]
    split <;> rfl

theorem serialized_terminalization_exactly_once_witness :
    sampleEntry.finalDecision = none ∧ ¬ (299 : Nat) > sampleEntry.expiresAt ∧
    (301 : Nat) > sampleEntry.expiresAt ∧
    (fun _ : String => some (SnippetBehavior.ok "")) sampleEntry.code
      = some (SnippetBehavior.ok "") ∧
    ((BotEngine.applyTypedAction [("P1", sampleEntry)] "P1" TypedAction.confirm 299
        (fun _ => some (SnippetBehavior.ok ""))).store = [] ∧
    (BotEngine.applyTypedAction [("P1", sampleEntry)] "P1" TypedAction.confirm 299
        (fun _ => some (SnippetBehavior.ok ""))).executed = [sampleEntry.code] ∧
    (BotEngine.applyTypedAction [("P1", sampleEntry)] "P1" TypedAction.confirm 299
        (fun _ => some (SnippetBehavior.ok ""))).msgs = [] ∧
    BotEngine.cleanupPass 301
        (BotEngine.applyTypedAction [("P1", sampleEntry)] "P1" TypedAction.confirm 299
          (fun _ => some (SnippetBehavior.ok ""))).store
      = ([], []) ∧
    BotEngine.cleanupPass 301 [("P1", sampleEntry)]
      = ([], [Msg.reaperExpiredNotice sampleEntry.channel sampleEntry.threadTs "P1"]) ∧
    BotEngine.handleTypedSnippetCommand (BotEngine.cleanupPass 301 [("P1", sampleEntry)]).1
        "confirm" sampleEntry.channel sampleEntry.threadTs 299
        (fun _ => some (SnippetBehavior.ok "")) = none) :=
  ⟨by decide, by decide, by decide, rfl,
    serialized_terminalization_exactly_once "P1" sampleEntry 299 301
      (fun _ => some (SnippetBehavior.ok "")) (SnippetBehavior.ok "")
      (by decide) (by decide) (by decide) rfl⟩

end DoBot
